import Mathlib

set_option maxRecDepth 8000

/-!
Verification of the embedded terminal subsystem of the File_Explorer
repository.  The repository contains two parallel implementations of the
terminal: `src/terminal.rs` (struct `TerminalState`, with a threaded
process runner and a shared output deque) and `src/main.rs` (struct
`FileExplorerApp`, with a synchronous runner and a plain output vector).
Both are embedded below; file-system, environment and process effects are
passed in explicitly as oracle records, so that every definition stays a
pure translation of the corresponding Rust function.
-/

/-! ## String primitives

The Rust `str` operations used by the terminal are re-implemented here
over `String.data` (lists of characters), so that every definition in
this file evaluates by kernel reduction on concrete inputs. -/

/-- `str::trim`: strip leading and trailing whitespace. -/
def str_trim (s : String) : String :=
  ⟨((s.data.dropWhile Char.isWhitespace).reverse.dropWhile
      Char.isWhitespace).reverse⟩

/-- `str::starts_with`: `str_starts_with s p` is true when `p` is a
prefix of `s`. -/
def str_starts_with (s p : String) : Bool :=
  p.data.isPrefixOf s.data

/-- Drop the first `n` characters of `s` (`&s[k..]` on a character
boundary). -/
def str_drop (s : String) (n : Nat) : String := ⟨s.data.drop n⟩

/-- Take the first `n` characters of `s` (`&s[..k]` on a character
boundary). -/
def str_take (s : String) (n : Nat) : String := ⟨s.data.take n⟩

/-- Lexicographic comparison of character lists; on Unicode scalar
values this coincides with Rust's byte-wise `Ord` on `String`, because
UTF-8 byte order agrees with code-point order. -/
def chars_le : List Char → List Char → Bool
  | [], _ => true
  | _ :: _, [] => false
  | a :: as, b :: bs =>
      if a < b then true else if a = b then chars_le as bs else false

/-- Lexicographic `≤` on strings (Rust's `Ord` for `String`). -/
def str_le (a b : String) : Bool := chars_le a.data b.data

/-- Splitting a character list at every character satisfying `p`
(used for `split_whitespace`; empty chunks are filtered by the
caller). -/
def split_on_p (p : Char → Bool) : List Char → List (List Char)
  | [] => [[]]
  | c :: cs =>
      if p c then [] :: split_on_p p cs
      else
        match split_on_p p cs with
        | [] => [[c]]
        | w :: ws => (c :: w) :: ws

/-- `str::split_whitespace` collected to a list. -/
def split_whitespace (s : String) : List String :=
  ((split_on_p Char.isWhitespace s.data).filter
      (fun w => ¬ w.isEmpty)).map (fun w => (⟨w⟩ : String))

/-! ## Model of `src/terminal.rs` (`TerminalState`) -/

/-- The fields of `TerminalState` that the terminal logic reads or writes.
`output_lines` (an `Arc<Mutex<VecDeque<String>>>` in Rust) is modelled as
the list `output`; `autocomplete_suggestions` / `show_autocomplete` are UI
echo state and are not touched by the functions modelled here. -/
structure TerminalState where
  output : List String
  input_buffer : String
  history : List String
  history_index : Nat
  current_dir : String
  is_running_command : Bool
deriving Repr

/-- Oracle for the file-system and environment effects used by
`TerminalState`: the result of `std::env::set_current_dir` (error carries
the display string of the OS error), `Path::canonicalize` (`none` when it
fails) and `dirs::home_dir()`. -/
structure Fs where
  set_current_dir : String → Except String Unit
  canonicalize : String → Option String
  home_dir : Option String

/-- `PathBuf::join`: an absolute right operand replaces the base path. -/
def joinPath (base p : String) : String :=
  if str_starts_with p "/" then p else base ++ "/" ++ p

/-- One fuelled round of the trimming loop
`while output.len() > 1000 { output.pop_front(); }` from `terminal.rs`.
The fuel only bounds the number of iterations so that the recursion is
structural; `trim_to_cap` supplies enough fuel for the loop to run to
completion. -/
def trim_go : Nat → List String → List String
  | 0, l => l
  | n + 1, l => if 1000 < l.length then trim_go n l.tail else l

/-- The trimming loop `while output.len() > 1000 { output.pop_front(); }`
from `terminal.rs` (it appears after the echo append and after each
streamed stdout/stderr append). -/
def trim_to_cap (l : List String) : List String :=
  trim_go l.length l

/-- One guarded append to the shared output deque:
`push_back(line)` followed by the trimming loop. -/
def term_append (l : List String) (line : String) : List String :=
  trim_to_cap (l ++ [line])

/-- Path resolution of `TerminalState::cd_internal` (terminal.rs:72-82). -/
def cd_resolve (fs : Fs) (st : TerminalState) (path : String) : String :=
  if str_starts_with path "/" then path
  else if path = "~" then fs.home_dir.getD "/"
  else if str_starts_with path "~/" then
    joinPath (fs.home_dir.getD "/") (str_drop path 2)
  else joinPath st.current_dir path

/-- `TerminalState::cd_internal` (terminal.rs:71-95).  Note that neither
append in this function is followed by the trimming loop. -/
def TerminalState.cd_internal (st : TerminalState) (fs : Fs) (path : String) :
    TerminalState :=
  let new_path := cd_resolve fs st path
  match fs.set_current_dir new_path with
  | .ok _ =>
      let dir := (fs.canonicalize new_path).getD new_path
      { st with current_dir := dir,
                output := st.output ++ ["Changed directory to: " ++ dir] }
  | .error e =>
      { st with output := st.output ++ ["cd: " ++ path ++ ": " ++ e] }

/-- The history-recording fragment of `TerminalState::execute_command`
(terminal.rs:43-47): push unless empty or equal to the last entry, then
set the cursor to the new length. -/
def record_history (st : TerminalState) (command : String) : TerminalState :=
  let h :=
    if st.history.isEmpty ∨ st.history.getLast? ≠ some command then
      st.history ++ [command]
    else st.history
  { st with history := h, history_index := h.length }

/-- `TerminalState::execute_command` (terminal.rs:38-69).  The spawned
thread of `execute_external_command` only captures the shared output
deque; its effect is modelled separately by `run_thread`.  The synchronous
part of the external branch sets `is_running_command` (terminal.rs:106). -/
def TerminalState.execute_command (st : TerminalState) (fs : Fs)
    (command : String) : TerminalState :=
  if (str_trim command).data.isEmpty then st
  else
    let st1 := record_history st command
    let st2 := { st1 with
      output := term_append st1.output (st1.current_dir ++ "$ " ++ command) }
    if str_starts_with command "cd " then
      st2.cd_internal fs (str_trim (str_drop command 3))
    else
      { st2 with is_running_command := true }

/-- The observable result of spawning `sh -c command`: either a spawn
error, or the lines successfully read from stdout and stderr together
with the result of `child.wait()` (`ok (success, display)` or a wait
error). -/
inductive SpawnResult where
  | spawn_error (e : String)
  | spawned (stdout_lines stderr_lines : List String)
      (wait : Except String (Bool × String))

/-- The status-reporting appends after both streams are drained
(terminal.rs:153-164). -/
def wait_status_lines (wait : Except String (Bool × String)) : List String :=
  match wait with
  | .ok (success, disp) =>
      if success then [] else ["Command exited with status: " ++ disp]
  | .error e => ["Failed to wait for command: " ++ e]

/-- The appends performed by the body of the thread spawned in
`TerminalState::execute_external_command` (terminal.rs:108-171), in
program order.  The boolean records whether the append is followed by the
trimming loop (true for streamed stdout/stderr lines, false for the
status and spawn-failure lines). -/
def thread_events : SpawnResult → List (String × Bool)
  | .spawn_error e => [("Failed to execute command: " ++ e, false)]
  | .spawned so se wait =>
      so.map (fun l => (l, true)) ++
      se.map (fun l => ("ERROR: " ++ l, true)) ++
      (wait_status_lines wait).map (fun l => (l, false))

/-- Execution of one append event against the session state.  The thread
only ever touches the shared output deque. -/
def apply_event (st : TerminalState) (ev : String × Bool) : TerminalState :=
  { st with output :=
      if ev.2 then term_append st.output ev.1 else st.output ++ [ev.1] }

/-- The complete effect of the runner thread on the session state. -/
def run_thread (res : SpawnResult) (st : TerminalState) : TerminalState :=
  (thread_events res).foldl apply_event st

/-- The lines appended by the runner thread, in append order. -/
def runner_lines (res : SpawnResult) : List String :=
  (thread_events res).map Prod.fst

/-- `TerminalState::navigate_history` (terminal.rs:238-253). -/
def TerminalState.navigate_history (st : TerminalState) (direction : Int) :
    TerminalState :=
  if st.history.isEmpty then st
  else if direction < 0 ∧ 0 < st.history_index then
    let i := st.history_index - 1
    { st with history_index := i, input_buffer := st.history.getD i "" }
  else if 0 < direction ∧ st.history_index < st.history.length - 1 then
    let i := st.history_index + 1
    { st with history_index := i, input_buffer := st.history.getD i "" }
  else if 0 < direction ∧ st.history_index = st.history.length - 1 then
    { st with history_index := st.history.length, input_buffer := "" }
  else st

/-- `TerminalState::clear_output` (terminal.rs:260-264). -/
def TerminalState.clear_output (st : TerminalState) : TerminalState :=
  { st with output :=
      ["Terminal cleared. Current directory: " ++ st.current_dir] }

/-- The Ctrl+C branch of `handle_terminal_input_events`
(terminal_ui.rs:122-129). -/
def handle_ctrl_c (st : TerminalState) : TerminalState :=
  if st.is_running_command then
    { st with is_running_command := false, output := st.output ++ ["^C"] }
  else st

/-- The fixed command list of `get_autocomplete_suggestions`
(terminal.rs:179-184). -/
def common_commands : List String :=
  ["ls", "cd", "pwd", "mkdir", "rmdir", "rm", "cp", "mv", "find", "grep",
   "cat", "less", "head", "tail", "touch", "chmod", "chown", "ps", "kill",
   "top", "df", "du", "tar", "zip", "unzip", "wget", "curl", "git", "nano",
   "vim", "emacs", "code", "python", "node", "npm", "cargo", "rustc"]

/-- Character index of the last occurrence of `c` in `s`
(`str::rfind`). -/
def rfind_char (c : Char) (s : String) : Option Nat :=
  match s.data.reverse.findIdx? (· = c) with
  | some i => some (s.data.length - 1 - i)
  | none => none

/-- `suggestions.sort(); suggestions.truncate(10);`
(terminal.rs:233-234).  Rust's stable sort on `String` and any other
correct sort agree here, because two `≤`-sorted permutations of the same
string list are equal. -/
def sort_and_truncate (l : List String) : List String :=
  (List.insertionSort (fun a b : String => str_le a b = true) l).take 10

/-- `TerminalState::get_autocomplete_suggestions` (terminal.rs:174-236).
`read_dir` is the oracle for `std::fs::read_dir`: for a directory path it
returns the entry names paired with their is-directory flag (`none` when
reading the directory fails). -/
def TerminalState.get_autocomplete_suggestions (st : TerminalState)
    (read_dir : String → Option (List (String × Bool)))
    (input : String) : List String :=
  let cmd_sugs :=
    if (str_trim input).data.isEmpty ∨ ¬ input.data.contains ' ' then
      common_commands.filter (fun cmd => str_starts_with cmd input)
    else []
  let parts : String × String :=
    match rfind_char ' ' input with
    | some space_pos =>
        let args := str_drop input (space_pos + 1)
        (match rfind_char '/' args with
         | some slash_pos =>
             (str_take args (slash_pos + 1), str_drop args (slash_pos + 1))
         | none => ("", args))
    | none => ("", input)
  let path_part := parts.1
  let file_part := parts.2
  let search_dir :=
    if path_part = "" then st.current_dir
    else if str_starts_with path_part "/" then path_part
    else joinPath st.current_dir path_part
  let file_sugs :=
    match read_dir search_dir with
    | some entries =>
        entries.filterMap (fun e =>
          if str_starts_with e.1 file_part then
            let suggestion :=
              if path_part = "" then e.1 else path_part ++ e.1
            some (if e.2 then suggestion ++ "/" else suggestion)
          else none)
    | none => []
  sort_and_truncate (cmd_sugs ++ file_sugs)

/-! ## Model of `src/main.rs` (`FileExplorerApp`, terminal part)

`main.rs` is a self-contained second implementation of the terminal: a
plain `Vec<String>` output log trimmed once per command, its own history
(without adjacent deduplication), and its own built-ins. -/

/-- The terminal-related fields of `FileExplorerApp` (main.rs). -/
structure FileExplorerApp where
  current_path : String
  terminal_output : List String
  terminal_history : List String
  terminal_history_index : Nat
deriving Repr

/-- Oracle for the file-system effects of the `main.rs` terminal:
`Path::parent` for `".."`, the `exists() && is_dir()` test used by
`change_directory`/`navigate_to`, and `fs::read_dir` for `ls` (entry
names paired with their is-directory flag, or the error display
string). -/
structure MainFs where
  parent : String → Option String
  is_dir_at : String → Bool
  read_dir : String → Except String (List (String × Bool))

/-- The per-command trim of `FileExplorerApp::execute_command`
(main.rs:464-466): `if len > 1000 { drain(0..500) }`. -/
def main_trim (l : List String) : List String :=
  if 1000 < l.length then l.drop 500 else l

/-- Path resolution of `FileExplorerApp::change_directory`
(main.rs:469-481): `none` is the "Already at root directory" abort. -/
def main_cd_resolve (fs : MainFs) (st : FileExplorerApp) (path : String) :
    Option String :=
  if str_starts_with path "/" then some path
  else if path = ".." then fs.parent st.current_path
  else some (joinPath st.current_path path)

/-- `FileExplorerApp::change_directory` (main.rs:469-489).  On success
`navigate_to` re-checks the same `exists() && is_dir()` predicate and
stores the path (its browser-history and breadcrumb bookkeeping is
outside the terminal subsystem); the confirmation line prints
`current_path` after the update. -/
def FileExplorerApp.change_directory (st : FileExplorerApp) (fs : MainFs)
    (path : String) : FileExplorerApp :=
  match main_cd_resolve fs st path with
  | none =>
      { st with terminal_output :=
          st.terminal_output ++ ["Already at root directory"] }
  | some new_path =>
      if fs.is_dir_at new_path then
        { st with current_path := new_path,
                  terminal_output :=
                    st.terminal_output ++ ["Changed to: " ++ new_path] }
      else
        { st with terminal_output :=
            st.terminal_output ++
              ["cd: no such file or directory: " ++ path] }

/-- `FileExplorerApp::list_directory` (main.rs:491-511). -/
def FileExplorerApp.list_directory (st : FileExplorerApp) (fs : MainFs)
    (show_hidden : Bool) : FileExplorerApp :=
  match fs.read_dir st.current_path with
  | .ok entries =>
      { st with terminal_output :=
          st.terminal_output ++
            entries.filterMap (fun e =>
              if ¬ show_hidden ∧ str_starts_with e.1 "." then none
              else some ((if e.2 then "d" else "-") ++ " " ++ e.1)) }
  | .error e =>
      { st with terminal_output := st.terminal_output ++ ["ls: " ++ e] }

/-- `FileExplorerApp::execute_system_command` (main.rs:513-547).  `proc`
is the oracle for `Command::output()` on the given command line: the
stdout and stderr lines on success (empty stream = empty list), or the
spawn-error display string. -/
def FileExplorerApp.execute_system_command (st : FileExplorerApp)
    (proc : String → Except String (List String × List String))
    (command : String) : FileExplorerApp :=
  let parts := split_whitespace command
  if parts.isEmpty then st
  else
    match proc command with
    | .ok (so, se) =>
        { st with terminal_output :=
            st.terminal_output ++ so ++ se.map (fun l => "Error: " ++ l) ++
              (if so.isEmpty ∧ se.isEmpty then
                ["Command executed successfully"] else []) }
    | .error e =>
        { st with terminal_output :=
            st.terminal_output ++
              ["Failed to execute '" ++ command ++ "': " ++ e] }

/-- `FileExplorerApp::execute_command` (main.rs:432-467).  `home` is the
oracle for `std::env::var_os("HOME")`. -/
def FileExplorerApp.execute_command (st : FileExplorerApp)
    (home : Option String) (fs : MainFs)
    (proc : String → Except String (List String × List String))
    (command : String) : FileExplorerApp :=
  let t := str_trim command
  if t.data.isEmpty then st
  else
    let st1 := { st with
      terminal_history := st.terminal_history ++ [t],
      terminal_history_index := st.terminal_history.length + 1 }
    let st2 := { st1 with
      terminal_output := st1.terminal_output ++ ["$ " ++ t] }
    let st3 :=
      if str_starts_with t "cd " then
        st2.change_directory fs (str_trim (str_drop t 3))
      else if t = "cd" then
        match home with
        | some h => st2.change_directory fs h
        | none =>
            { st2 with terminal_output :=
                st2.terminal_output ++
                  ["Error: HOME environment variable not set"] }
      else if t = "pwd" then
        { st2 with terminal_output :=
            st2.terminal_output ++ [st2.current_path] }
      else if t = "ls" ∨ t = "ls -la" then
        st2.list_directory fs (t = "ls -la")
      else if t = "clear" then
        { st2 with terminal_output := ["Terminal cleared"] }
      else
        st2.execute_system_command proc t
    { st3 with terminal_output := main_trim st3.terminal_output }

/-! ## Concrete fixtures

Closed states and oracles used by the concrete counterexamples and
witnesses below. -/

/-- A file system on which every `set_current_dir` fails with ENOENT,
canonicalization fails, and no home directory is configured. -/
def fs_fail : Fs :=
  { set_current_dir := fun _ => .error "No such file or directory (os error 2)",
    canonicalize := fun _ => none,
    home_dir := none }

/-- A fresh `TerminalState` session rooted at `/`. -/
def init_term : TerminalState :=
  { output := [], input_buffer := "", history := [], history_index := 0,
    current_dir := "/", is_running_command := false }

/-- A `TerminalState` whose output buffer already holds exactly 1000
lines. -/
def st_full : TerminalState :=
  { output := List.replicate 1000 "x", input_buffer := "", history := [],
    history_index := 0, current_dir := "/d", is_running_command := false }

/-- A `main.rs` file-system oracle on which no path is a directory. -/
def fs_none : MainFs :=
  { parent := fun _ => none, is_dir_at := fun _ => false,
    read_dir := fun _ => .error "permission denied" }

/-- A `main.rs` file-system oracle on which every path is a directory. -/
def fs_dirs : MainFs :=
  { parent := fun _ => none, is_dir_at := fun _ => true,
    read_dir := fun _ => .ok [] }

/-- A process oracle: every command succeeds with empty stdout and
stderr. -/
def proc_silent : String → Except String (List String × List String) :=
  fun _ => .ok ([], [])

/-- A fresh `FileExplorerApp` terminal rooted at `/home`. -/
def st_main0 : FileExplorerApp :=
  { current_path := "/home", terminal_output := [], terminal_history := [],
    terminal_history_index := 0 }

/-- Whether `pat` occurs as a contiguous substring of `l` (used to state
that an output line does, or does not, mention the working directory). -/
def sub_chars : List Char → List Char → Bool
  | pat, [] => pat.isEmpty
  | pat, c :: cs => pat.isPrefixOf (c :: cs) || sub_chars pat cs

/-- Whether the string `dir` occurs inside the string `line`. -/
def str_mentions (line dir : String) : Bool := sub_chars dir.data line.data

/-! ## Basic lemmas about the trimming loop -/

/-- With enough fuel, the trimming loop pops from the front exactly until
the cap holds. -/
theorem trim_go_eq_drop : ∀ (n : Nat) (l : List String),
    l.length - 1000 ≤ n → trim_go n l = l.drop (l.length - 1000) := by
  intro n
  induction n with
  | zero =>
      intro l hl
      have h0 : l.length - 1000 = 0 := by omega
      rw [trim_go, h0, List.drop_zero]
  | succ n ih =>
      intro l hl
      by_cases h : 1000 < l.length
      · rw [trim_go, if_pos h]
        have htail : l.tail.length - 1000 ≤ n := by
          simp only [List.length_tail]; omega
        rw [ih l.tail htail, ← List.drop_one, List.drop_drop]
        congr 1
        simp only [List.length_drop, List.length_tail]
        omega
      · rw [trim_go, if_neg h]
        have h0 : l.length - 1000 = 0 := by omega
        rw [h0, List.drop_zero]

/-- The trimming loop pops from the front exactly until the cap holds. -/
theorem trim_to_cap_eq_drop (l : List String) :
    trim_to_cap l = l.drop (l.length - 1000) := by
  exact trim_go_eq_drop l.length l (by omega)

/-! ## The lexicographic comparison is a total preorder -/

theorem chars_le_total : ∀ (as bs : List Char),
    chars_le as bs = true ∨ chars_le bs as = true := by
  intro as
  induction as with
  | nil => intro bs; left; rfl
  | cons a as ih =>
      intro bs
      cases bs with
      | nil => right; rfl
      | cons b bs =>
          rcases lt_trichotomy a b with h | h | h
          · left; simp [chars_le, h]
          · subst h
            rcases ih bs with h2 | h2
            · left; simp [chars_le, h2]
            · right; simp [chars_le, h2]
          · right; simp [chars_le, h]

theorem chars_le_trans : ∀ (as bs cs : List Char),
    chars_le as bs = true → chars_le bs cs = true →
    chars_le as cs = true := by
  intro as
  induction as with
  | nil => intro bs cs _ _; rfl
  | cons a as ih =>
      intro bs cs h1 h2
      cases bs with
      | nil => simp [chars_le] at h1
      | cons b bs =>
          cases cs with
          | nil => simp [chars_le] at h2
          | cons c cs =>
              simp only [chars_le] at h1 h2 ⊢
              by_cases hab : a < b
              · by_cases hbc : b < c
                · simp [lt_trans hab hbc]
                · simp only [hbc, if_false] at h2
                  by_cases hbc2 : b = c
                  · subst hbc2; simp [hab]
                  · simp [hbc2] at h2
              · simp only [hab, if_false] at h1
                by_cases hab2 : a = b
                · subst hab2
                  simp only [if_neg hab] at h1
                  by_cases hbc : a < c
                  · simp [hbc]
                  · simp only [hbc, if_false] at h2 ⊢
                    by_cases hbc2 : a = c
                    · subst hbc2; simp at h2 ⊢; exact ih _ _ h1 h2
                    · simp [hbc2] at h2
                · simp [hab2] at h1

instance : IsTotal String (fun a b => str_le a b = true) :=
  ⟨fun a b => chars_le_total a.data b.data⟩

instance : IsTrans String (fun a b => str_le a b = true) :=
  ⟨fun a b c => chars_le_trans a.data b.data c.data⟩

/-! ## Field-preservation helper lemmas -/

/-- `cd_internal` never touches the history fields. -/
theorem cd_internal_fields (st : TerminalState) (fs : Fs) (p : String) :
    (st.cd_internal fs p).history = st.history
    ∧ (st.cd_internal fs p).history_index = st.history_index := by
  cases h : fs.set_current_dir (cd_resolve fs st p) <;>
    simp [TerminalState.cd_internal, h]

/-- `change_directory` never touches the history fields. -/
theorem change_directory_fields (st : FileExplorerApp) (fs : MainFs)
    (p : String) :
    (st.change_directory fs p).terminal_history = st.terminal_history
    ∧ (st.change_directory fs p).terminal_history_index
        = st.terminal_history_index := by
  cases h : main_cd_resolve fs st p with
  | none => simp [FileExplorerApp.change_directory, h]
  | some q =>
      by_cases h2 : fs.is_dir_at q <;>
        simp [FileExplorerApp.change_directory, h, h2]

/-- `list_directory` never touches the history fields. -/
theorem list_directory_fields (st : FileExplorerApp) (fs : MainFs)
    (b : Bool) :
    (st.list_directory fs b).terminal_history = st.terminal_history
    ∧ (st.list_directory fs b).terminal_history_index
        = st.terminal_history_index := by
  cases h : fs.read_dir st.current_path <;>
    simp [FileExplorerApp.list_directory, h]

/-- `execute_system_command` never touches the history fields. -/
theorem execute_system_fields (st : FileExplorerApp)
    (proc : String → Except String (List String × List String))
    (c : String) :
    (st.execute_system_command proc c).terminal_history
      = st.terminal_history
    ∧ (st.execute_system_command proc c).terminal_history_index
        = st.terminal_history_index := by
  unfold FileExplorerApp.execute_system_command
  by_cases hp : (split_whitespace c).isEmpty
  · simp [hp]
  · cases h : proc c with
    | ok r => cases r with
      | mk so se => simp [hp, h]
    | error e => simp [hp, h]

/-- History effect of `TerminalState::execute_command` on any non-blank
command: push unless equal to the last entry, then cursor = length. -/
theorem exec_history (fs : Fs) (st : TerminalState) (c : String)
    (h1 : (str_trim c).data.isEmpty = false) :
    (st.execute_command fs c).history =
      (if st.history.isEmpty ∨ st.history.getLast? ≠ some c then
        st.history ++ [c] else st.history)
    ∧ (st.execute_command fs c).history_index
        = (st.execute_command fs c).history.length := by
  by_cases h2 : str_starts_with c "cd "
  · constructor <;>
      simp [TerminalState.execute_command, record_history, h1, h2,
        (cd_internal_fields _ _ _).1, (cd_internal_fields _ _ _).2]
  · constructor <;>
      simp [TerminalState.execute_command, record_history, h1, h2]

/-- Submitting the same command twice in a row leaves the history of
`TerminalState` unchanged the second time (adjacent deduplication). -/
theorem exec_twice_a (fs : Fs) (st : TerminalState) :
    ((st.execute_command fs "a").execute_command fs "a").history
      = (st.execute_command fs "a").history := by
  have h1 : (str_trim "a").data.isEmpty = false := by decide
  have e1 := (exec_history fs st "a" h1).1
  have e2 := (exec_history fs (st.execute_command fs "a") "a" h1).1
  rw [e2, if_neg]
  rw [e1]
  by_cases hc : st.history.isEmpty ∨ st.history.getLast? ≠ some "a"
  · rw [if_pos hc]
    push_neg
    constructor
    · simp
    · simp
  · rw [if_neg hc]
    push_neg at hc ⊢
    exact ⟨hc.1, hc.2⟩

/-- History effect of `FileExplorerApp::execute_command` on any
non-blank command: unconditional push of the trimmed command, then
cursor = length. -/
theorem main_exec_history (home : Option String) (fs : MainFs)
    (proc : String → Except String (List String × List String))
    (st : FileExplorerApp) (c : String)
    (h1 : (str_trim c).data.isEmpty = false) :
    (st.execute_command home fs proc c).terminal_history
      = st.terminal_history ++ [str_trim c]
    ∧ (st.execute_command home fs proc c).terminal_history_index
        = st.terminal_history.length + 1 := by
  simp only [FileExplorerApp.execute_command, h1, Bool.false_eq_true,
    if_false]
  constructor <;>
  · repeat' split
    all_goals
      simp [(change_directory_fields _ _ _).1,
        (change_directory_fields _ _ _).2,
        (list_directory_fields _ _ _).1, (list_directory_fields _ _ _).2,
        (execute_system_fields _ _ _).1, (execute_system_fields _ _ _).2]

/-- Projecting the first components out of a tagged line list. -/
theorem map_fst_pair (f : String → String) (b : Bool) (xs : List String) :
    (xs.map (fun l => (f l, b))).map Prod.fst = xs.map f := by
  induction xs with
  | nil => rfl
  | cons x t ih => simp [ih]

/-- The runner thread appends, in order: the stdout lines verbatim, the
stderr lines with the `ERROR: ` tag, and finally the status lines. -/
theorem runner_lines_spawned (so se : List String)
    (w : Except String (Bool × String)) :
    runner_lines (.spawned so se w)
      = so ++ se.map (fun l => "ERROR: " ++ l) ++ wait_status_lines w := by
  have h1 : (Prod.fst ∘ fun l : String => (l, true))
      = fun l : String => l := rfl
  have h2 : (Prod.fst ∘ fun l : String => ("ERROR: " ++ l, true))
      = fun l : String => "ERROR: " ++ l := rfl
  have h3 : (Prod.fst ∘ fun l : String => (l, false))
      = fun l : String => l := rfl
  simp [runner_lines, thread_events, List.map_append, h1, h2, h3]

/-- `sort()` followed by `truncate(10)` yields at most ten entries. -/
theorem sort_and_truncate_length (l : List String) :
    (sort_and_truncate l).length ≤ 10 := by
  simp only [sort_and_truncate]
  exact List.length_take_le 10 _

/-- `sort()` followed by `truncate(10)` yields a lexicographically
sorted list. -/
theorem sort_and_truncate_sorted (l : List String) :
    List.Sorted (fun a b => str_le a b = true) (sort_and_truncate l) :=
  List.Pairwise.sublist (List.take_sublist 10 _)
    (List.sorted_insertionSort _ l)

/-! ## Claim C1 -/

/-- Claim C1, counterexample.  The claim states that immediately after
each append to the Output Buffer (command echo, built-in output,
streamed stdout/stderr) the buffer holds at most 1000 lines.  Running
the built-in `cd /nonexistent` on a session whose buffer already holds
1000 lines leaves 1001 lines: the echo append is trimmed back to the
cap, but the `cd` error append of `cd_internal` is not followed by the
trimming loop. -/
theorem claim_C1_counterexample :
    (st_full.execute_command fs_fail "cd /nonexistent").output.length = 1001
    ∧ ¬ (st_full.execute_command fs_fail
          "cd /nonexistent").output.length ≤ 1000 := by
  decide

/-- Claim C1, amended.  For the appends that carry the trimming loop
(the command echo and the streamed stdout/stderr lines, modelled by
`term_append`), the buffer holds at most 1000 lines immediately after
the append, and the retained lines are exactly the most recently
appended ones in order (the front of `buf ++ [line]` is dropped).
Built-in output appends (the `cd` result lines and the status lines)
are not followed by trimming and can leave the buffer above the cap, as
the counterexample shows. -/
theorem claim_C1_amended (buf : List String) (line : String) :
    (term_append buf line).length ≤ 1000
    ∧ term_append buf line = (buf ++ [line]).drop (buf.length + 1 - 1000) := by
  have h := trim_to_cap_eq_drop (buf ++ [line])
  have hlen : (buf ++ [line]).length = buf.length + 1 := by simp
  rw [hlen] at h
  constructor
  · rw [term_append, h]
    simp only [List.length_drop, hlen]
    omega
  · rw [term_append, h]

/-! ## Claim C2 -/

/-- Claim C2, counterexample.  The claim states that every failing
directory change appends exactly one line of the form
`cd: {input}: {os_error}`.  The `main.rs` implementation of the `cd`
built-in (`FileExplorerApp::change_directory`) appends
`cd: no such file or directory: /nonexistent` instead, which does not
start with `cd: /nonexistent: `. -/
theorem claim_C2_counterexample :
    (st_main0.change_directory fs_none "/nonexistent").terminal_output
      = ["cd: no such file or directory: /nonexistent"]
    ∧ (st_main0.change_directory fs_none "/nonexistent").current_path
        = st_main0.current_path
    ∧ str_starts_with "cd: no such file or directory: /nonexistent"
        "cd: /nonexistent: " = false := by
  decide

/-- Claim C2, amended.  On a failed directory change both
implementations append exactly one error line and leave the session
directory unchanged, but only `terminal.rs` uses the
`cd: {input}: {os_error}` format; `main.rs` appends
`cd: no such file or directory: {input}`. -/
theorem claim_C2_amended :
    (∀ (fs : Fs) (st : TerminalState) (path e : String),
      fs.set_current_dir (cd_resolve fs st path) = .error e →
      st.cd_internal fs path
        = { st with output := st.output ++ ["cd: " ++ path ++ ": " ++ e] })
    ∧ ∀ (fs : MainFs) (st : FileExplorerApp) (path q : String),
      main_cd_resolve fs st path = some q → fs.is_dir_at q = false →
      st.change_directory fs path
        = { st with terminal_output := st.terminal_output ++
              ["cd: no such file or directory: " ++ path] } := by
  constructor
  · intro fs st path e h
    simp [TerminalState.cd_internal, h]
  · intro fs st path q h1 h2
    simp [FileExplorerApp.change_directory, h1, h2]

/-- Claim C2, witness for the amended theorem at concrete inputs. -/
theorem claim_C2_witness :
    init_term.cd_internal fs_fail "/nonexistent"
      = { init_term with output := init_term.output ++
            ["cd: " ++ "/nonexistent" ++ ": "
              ++ "No such file or directory (os error 2)"] }
    ∧ st_main0.change_directory fs_none "/nonexistent"
        = { st_main0 with terminal_output := st_main0.terminal_output ++
              ["cd: no such file or directory: " ++ "/nonexistent"] } :=
  ⟨claim_C2_amended.1 fs_fail init_term "/nonexistent" _ rfl,
   claim_C2_amended.2 fs_none st_main0 "/nonexistent" "/nonexistent"
     (by decide) rfl⟩

/-! ## Claim C3 -/

/-- Claim C3, counterexample.  The claim states that whenever an append
pushes the buffer over the 1000-line cap, the eviction removes the
oldest 500 lines in one batch (which would leave 501 lines here).  The
per-append trimming of `terminal.rs` instead pops single lines until
the cap holds: appending to a 1000-line buffer leaves 1000 lines, not
501. -/
theorem claim_C3_counterexample :
    (term_append (List.replicate 1000 "x") "y").length = 1000
    ∧ (term_append (List.replicate 1000 "x") "y").length ≠ 501 := by
  decide

/-- Claim C3, amended.  The per-append trimming of `terminal.rs` evicts
the oldest lines one at a time, exactly down to the cap; the batch
eviction of the oldest 500 lines exists only in `main.rs`, where it runs
once per submitted command (not per append) when the buffer exceeds
1000 lines. -/
theorem claim_C3_amended :
    (∀ (buf : List String) (line : String),
      term_append buf line = (buf ++ [line]).drop (buf.length + 1 - 1000))
    ∧ ∀ (l : List String), 1000 < l.length → main_trim l = l.drop 500 := by
  constructor
  · intro buf line
    have h := trim_to_cap_eq_drop (buf ++ [line])
    have hlen : (buf ++ [line]).length = buf.length + 1 := by simp
    rw [hlen] at h
    rw [term_append, h]
  · intro l h
    simp [main_trim, h]

/-- Claim C3, witness for the amended theorem at concrete inputs. -/
theorem claim_C3_witness :
    term_append (List.replicate 1000 "x") "y"
      = (List.replicate 1000 "x" ++ ["y"]).drop
          ((List.replicate 1000 "x").length + 1 - 1000)
    ∧ main_trim (List.replicate 1001 "x")
        = (List.replicate 1001 "x").drop 500 :=
  ⟨claim_C3_amended.1 _ _, claim_C3_amended.2 _ (by simp)⟩

/-! ## Claim C4 -/

/-- Claim C4, counterexample.  The claim states that submitting the
exact line `cd` resolves the home-directory variable and, when it is
absent, appends exactly one error line naming it.  In `terminal.rs`
(whose session has no home directory here, `fs_fail.home_dir = none`)
the exact line `cd` is not a built-in at all: only the echo line is
appended — no error line naming the variable — and the command is
dispatched to the subshell. -/
theorem claim_C4_counterexample :
    (init_term.execute_command fs_fail "cd").output = ["/$ cd"]
    ∧ (init_term.execute_command fs_fail "cd").current_dir
        = init_term.current_dir
    ∧ (init_term.execute_command fs_fail "cd").is_running_command = true := by
  decide

/-- Claim C4, amended.  The exact line `cd` is a built-in only in
`main.rs`: with the home variable absent it appends exactly one error
line naming `HOME` and leaves the directory unchanged, and with the
variable set to a directory it changes to it.  In `terminal.rs` the
exact line `cd` falls through to the external-command path: the session
directory is never changed, only the echo line is appended
synchronously, and the running flag is set. -/
theorem claim_C4_amended :
    (∀ (fs : MainFs)
      (proc : String → Except String (List String × List String))
      (st : FileExplorerApp),
      st.terminal_output.length ≤ 998 →
      (st.execute_command none fs proc "cd").terminal_output
        = st.terminal_output
            ++ ["$ cd", "Error: HOME environment variable not set"]
      ∧ (st.execute_command none fs proc "cd").current_path
          = st.current_path)
    ∧ (∀ (fs : MainFs)
      (proc : String → Except String (List String × List String))
      (st : FileExplorerApp) (h : String),
      str_starts_with h "/" = true → fs.is_dir_at h = true →
      (st.execute_command (some h) fs proc "cd").current_path = h)
    ∧ ∀ (fs : Fs) (st : TerminalState),
      (st.execute_command fs "cd").current_dir = st.current_dir
      ∧ (st.execute_command fs "cd").output
          = term_append st.output (st.current_dir ++ "$ " ++ "cd")
      ∧ (st.execute_command fs "cd").is_running_command = true := by
  refine ⟨?_, ?_, ?_⟩
  · intro fs proc st hlen
    have hs : ("$ " ++ str_trim "cd") = "$ cd" := by decide
    constructor
    · simp +decide [FileExplorerApp.execute_command, main_trim, hs]
      intro hc
      exact absurd hc (by omega)
    · simp +decide [FileExplorerApp.execute_command, main_trim]
  · intro fs proc st h h1 h2
    simp +decide [FileExplorerApp.execute_command,
      FileExplorerApp.change_directory, main_cd_resolve, main_trim, h1, h2]
  · intro fs st
    refine ⟨?_, ?_, ?_⟩ <;>
      simp +decide [TerminalState.execute_command, record_history]

/-- Claim C4, witness for the amended theorem at concrete inputs. -/
theorem claim_C4_witness :
    (st_main0.execute_command none fs_none proc_silent "cd").terminal_output
      = st_main0.terminal_output
          ++ ["$ cd", "Error: HOME environment variable not set"]
    ∧ (st_main0.execute_command none fs_none proc_silent "cd").current_path
        = st_main0.current_path
    ∧ (st_main0.execute_command (some "/home/user") fs_dirs proc_silent
        "cd").current_path = "/home/user"
    ∧ (init_term.execute_command fs_fail "cd").current_dir
        = init_term.current_dir :=
  ⟨(claim_C4_amended.1 fs_none proc_silent st_main0 (by decide)).1,
   (claim_C4_amended.1 fs_none proc_silent st_main0 (by decide)).2,
   claim_C4_amended.2.1 fs_dirs proc_silent st_main0 "/home/user"
     (by decide) rfl,
   (claim_C4_amended.2.2 fs_fail init_term).1⟩

/-! ## Claim C5 -/

/-- Claim C5, counterexample.  The claim states that after recording
`a` then `b`, the first `navigate(-1)` yields `a`.  The code decrements
the cursor from `len = 2` to `1` and recalls `history[1]`, which is
`b`, not `a`. -/
theorem claim_C5_counterexample :
    ((record_history (record_history init_term "a") "b").navigate_history
        (-1)).input_buffer = "b"
    ∧ ("b" : String) ≠ "a" := by
  decide

/-- Claim C5, amended.  After recording `a` then `b`, successive
`navigate(-1)` calls yield `b`, then `a`, and then remain at `a` (the
cursor is clamped at floor 0 and the first entry repeats from the third
call on, not from the second). -/
theorem claim_C5_amended :
    ((record_history (record_history init_term "a") "b").navigate_history
        (-1)).input_buffer = "b"
    ∧ (((record_history (record_history init_term "a") "b").navigate_history
        (-1)).navigate_history (-1)).input_buffer = "a"
    ∧ ((((record_history (record_history init_term "a") "b").navigate_history
        (-1)).navigate_history (-1)).navigate_history (-1)).input_buffer
        = "a" := by
  decide

/-! ## Claim C6 -/

/-- Claim C6, counterexample.  The claim states that the history record
operation deduplicates adjacent repeats for every submitted command, so
that submitting `a` twice leaves history length 1.  The `main.rs`
history recorder pushes unconditionally: submitting `a` twice leaves
history length 2. -/
theorem claim_C6_counterexample :
    ((st_main0.execute_command none fs_none proc_silent "a").execute_command
        none fs_none proc_silent "a").terminal_history.length = 2
    ∧ (2 : Nat) ≠ 1 := by
  decide

/-- Claim C6, amended.  In `terminal.rs`, a non-blank submitted command
is appended to the history unless it equals the most recent entry, and
the cursor then equals the history length; submitting `a` twice leaves
the history unchanged the second time.  In `main.rs`, every non-blank
submitted command is pushed unconditionally (adjacent duplicates
included) and the cursor is set to the new length. -/
theorem claim_C6_amended :
    (∀ (fs : Fs) (st : TerminalState) (c : String),
      (str_trim c).data.isEmpty = false →
      (st.execute_command fs c).history =
        (if st.history.isEmpty ∨ st.history.getLast? ≠ some c then
          st.history ++ [c] else st.history)
      ∧ (st.execute_command fs c).history_index
          = (st.execute_command fs c).history.length)
    ∧ (∀ (fs : Fs) (st : TerminalState),
      ((st.execute_command fs "a").execute_command fs "a").history
        = (st.execute_command fs "a").history)
    ∧ ∀ (home : Option String) (fs : MainFs)
      (proc : String → Except String (List String × List String))
      (st : FileExplorerApp) (c : String),
      (str_trim c).data.isEmpty = false →
      (st.execute_command home fs proc c).terminal_history
        = st.terminal_history ++ [str_trim c]
      ∧ (st.execute_command home fs proc c).terminal_history_index
          = st.terminal_history.length + 1 :=
  ⟨fun fs st c h => exec_history fs st c h,
   fun fs st => exec_twice_a fs st,
   fun home fs proc st c h => main_exec_history home fs proc st c h⟩

/-- Claim C6, witness for the amended theorem at concrete inputs. -/
theorem claim_C6_witness :
    (init_term.execute_command fs_fail "ls").history = ["ls"]
    ∧ (st_main0.execute_command none fs_none proc_silent
        "ls").terminal_history = ["ls"] := by
  constructor
  · have h := (claim_C6_amended.1 fs_fail init_term "ls" (by decide)).1
    rw [h]
    decide
  · have h := (claim_C6_amended.2.2 none fs_none proc_silent st_main0 "ls"
      (by decide)).1
    rw [h]
    decide

/-! ## Claim C7 -/

/-- Claim C7, counterexample.  The claim states that every Output
Buffer clear operation appends exactly one line that reports the
current working directory.  Running `clear` in `main.rs` (working
directory `/home`) leaves exactly one line, `Terminal cleared`, which
does not mention the working directory at all. -/
theorem claim_C7_counterexample :
    (st_main0.execute_command none fs_none proc_silent
        "clear").terminal_output = ["Terminal cleared"]
    ∧ st_main0.current_path = "/home"
    ∧ str_mentions "Terminal cleared" "/home" = false := by
  decide

/-- Claim C7, amended.  Clearing always leaves the buffer with exactly
one notice line.  The `terminal.rs` clear (`clear_output`, bound to
Ctrl+L) reports the current working directory in that line (the
directory is a suffix of the line); the `main.rs` `clear` command leaves
the fixed line `Terminal cleared` without the directory. -/
theorem claim_C7_amended :
    (∀ st : TerminalState,
      st.clear_output.output
        = ["Terminal cleared. Current directory: " ++ st.current_dir]
      ∧ ∃ p, "Terminal cleared. Current directory: " ++ st.current_dir
          = p ++ st.current_dir)
    ∧ ∀ (home : Option String) (fs : MainFs)
      (proc : String → Except String (List String × List String))
      (st : FileExplorerApp),
      (st.execute_command home fs proc "clear").terminal_output
        = ["Terminal cleared"] := by
  constructor
  · intro st
    exact ⟨rfl, ⟨"Terminal cleared. Current directory: ", rfl⟩⟩
  · intro home fs proc st
    simp +decide [FileExplorerApp.execute_command, main_trim]

/-! ## Claim C8 -/

/-- Claim C8.  For every input string, working directory and file-system
state, `get_autocomplete_suggestions` returns a list that is sorted
lexicographically and contains at most 10 candidates: the function ends
with `suggestions.sort(); suggestions.truncate(10)`. -/
theorem claim_C8 (st : TerminalState)
    (read_dir : String → Option (List (String × Bool))) (input : String) :
    (st.get_autocomplete_suggestions read_dir input).length ≤ 10
    ∧ List.Sorted (fun a b => str_le a b = true)
        (st.get_autocomplete_suggestions read_dir input) := by
  constructor
  · simp only [TerminalState.get_autocomplete_suggestions]
    exact sort_and_truncate_length _
  · simp only [TerminalState.get_autocomplete_suggestions]
    exact sort_and_truncate_sorted _

/-! ## Claim C9 -/

/-- Claim C9.  Dispatching an external command sets the session's
running flag; the runner thread (which only ever touches the shared
output deque) never changes the flag, whatever the spawned process does;
and the flag goes back to false only through the UI's Ctrl+C handler. -/
theorem claim_C9 :
    (∀ (fs : Fs) (st : TerminalState) (c : String),
      (str_trim c).data.isEmpty = false → str_starts_with c "cd " = false →
      (st.execute_command fs c).is_running_command = true)
    ∧ (∀ (res : SpawnResult) (st : TerminalState),
      (run_thread res st).is_running_command = st.is_running_command)
    ∧ ∀ st : TerminalState,
      (handle_ctrl_c st).is_running_command = false := by
  refine ⟨?_, ?_, ?_⟩
  · intro fs st c h1 h2
    simp [TerminalState.execute_command, h1, h2]
  · intro res st
    unfold run_thread
    generalize thread_events res = evs
    induction evs generalizing st with
    | nil => rfl
    | cons e t ih =>
        simp only [List.foldl_cons]
        rw [ih]
        rfl
  · intro st
    by_cases h : st.is_running_command <;> simp [handle_ctrl_c, h]

/-- Claim C9, witness for the theorem at concrete inputs. -/
theorem claim_C9_witness :
    (init_term.execute_command fs_fail "ls").is_running_command = true
    ∧ (run_thread (.spawned ["out"] ["err"] (.ok (true, "0")))
        st_full).is_running_command = st_full.is_running_command
    ∧ (handle_ctrl_c init_term).is_running_command = false :=
  ⟨claim_C9.1 fs_fail init_term "ls" (by decide) (by decide),
   claim_C9.2.1 (.spawned ["out"] ["err"] (.ok (true, "0"))) st_full,
   claim_C9.2.2 init_term⟩

/-! ## Claim C10 -/

/-- Claim C10.  Within a single external command execution, the runner
thread appends every stdout line before any stderr line: the stdout
lines form the initial segment of the runner's append trace, and the
tagged stderr lines (followed by the status lines) come after, because
the thread drains stdout to end-of-stream before opening the stderr
reader. -/
theorem claim_C10 (so se : List String)
    (w : Except String (Bool × String)) :
    (runner_lines (.spawned so se w)).take so.length = so
    ∧ (runner_lines (.spawned so se w)).drop so.length
        = se.map (fun l => "ERROR: " ++ l) ++ wait_status_lines w := by
  rw [runner_lines_spawned, List.append_assoc]
  constructor
  · exact List.take_left so _
  · exact List.drop_left so _
